import Mathlib

/-!
Verification of the image-drop server core (`src/server/index.ts`):
magic-byte format sniffing, the upload transaction, and the per-user
history query. Bytes are modelled as `List Nat`, buffer indexing
(`buf[i]`, guarded by length checks in the source) as `List.getD`.
-/

namespace ImageDrop

/-- `isPng` from `src/server/index.ts` (lines 93-102): length ≥ 8 and the
8-byte PNG signature `89 50 4E 47 0D 0A 1A 0A`. -/
def isPng (buf : List Nat) : Bool :=
  decide (8 ≤ buf.length) &&
  (buf.getD 0 0 == 0x89) &&
  (buf.getD 1 0 == 0x50) &&
  (buf.getD 2 0 == 0x4e) &&
  (buf.getD 3 0 == 0x47) &&
  (buf.getD 4 0 == 0x0d) &&
  (buf.getD 5 0 == 0x0a) &&
  (buf.getD 6 0 == 0x1a) &&
  (buf.getD 7 0 == 0x0a)

/-- `isJpeg` from `src/server/index.ts` (lines 104-109): length ≥ 4,
first two bytes `FF D8`, last two bytes `FF D9`. -/
def isJpeg (buf : List Nat) : Bool :=
  decide (4 ≤ buf.length) &&
  (buf.getD 0 0 == 0xff) &&
  (buf.getD 1 0 == 0xd8) &&
  (buf.getD (buf.length - 2) 0 == 0xff) &&
  (buf.getD (buf.length - 1) 0 == 0xd9)

/-- `isGif` from `src/server/index.ts` (lines 111-118): length ≥ 6,
"GIF8", then `37` or `39`, then `61`. -/
def isGif (buf : List Nat) : Bool :=
  decide (6 ≤ buf.length) &&
  (buf.getD 0 0 == 0x47) &&
  (buf.getD 1 0 == 0x49) &&
  (buf.getD 2 0 == 0x46) &&
  (buf.getD 3 0 == 0x38) &&
  ((buf.getD 4 0 == 0x37) || (buf.getD 4 0 == 0x39)) &&
  (buf.getD 5 0 == 0x61)

/-- `isWebp` from `src/server/index.ts` (lines 120-131): length ≥ 12,
"RIFF" at bytes 0-3, "WEBP" at bytes 8-11; bytes 4-7 unchecked. -/
def isWebp (buf : List Nat) : Bool :=
  decide (12 ≤ buf.length) &&
  (buf.getD 0 0 == 0x52) &&
  (buf.getD 1 0 == 0x49) &&
  (buf.getD 2 0 == 0x46) &&
  (buf.getD 3 0 == 0x46) &&
  (buf.getD 8 0 == 0x57) &&
  (buf.getD 9 0 == 0x45) &&
  (buf.getD 10 0 == 0x42) &&
  (buf.getD 11 0 == 0x50)

/-- `validByMagic` from `src/server/index.ts` (lines 159-163): the
declared content type selects its own sniffer. -/
def validByMagic (ct : String) (buf : List Nat) : Bool :=
  (ct == "image/png" && isPng buf) ||
  (ct == "image/jpeg" && isJpeg buf) ||
  (ct == "image/gif" && isGif buf) ||
  (ct == "image/webp" && isWebp buf)

/-- The content-type allow-list check at lines 143-148: exactly the
four MIME strings pass. -/
def mimeOk (ct : String) : Bool :=
  ct == "image/png" || ct == "image/jpeg" || ct == "image/gif" || ct == "image/webp"

/-- The four image formats the server can sniff (the enumerated-variant
view of the dispatch in `validByMagic`). -/
inductive ImgFormat
  | png
  | jpeg
  | gif
  | webp
deriving DecidableEq

/-- The per-format sniffer selected by `ImgFormat`. -/
def magicOk : ImgFormat → List Nat → Bool
  | .png => isPng
  | .jpeg => isJpeg
  | .gif => isGif
  | .webp => isWebp

/-- The MIME string the server associates to each sniffable format. -/
def mimeOf : ImgFormat → String
  | .png => "image/png"
  | .jpeg => "image/jpeg"
  | .gif => "image/gif"
  | .webp => "image/webp"

/-- `mediaType` values of `UploadedAsset` (`src/shared/types/api.ts`). -/
inductive MediaType
  | image
  | gif
  | video
deriving DecidableEq

/-- `UploadedAsset` from `src/shared/types/api.ts`: the persisted asset
record (`date` is the ISO-8601 string written at upload time). -/
structure UploadedAsset where
  mediaType : MediaType
  mediaUrl : String
  mediaId : String
  date : String
deriving DecidableEq

/-- A value stored in a user's hash: either the `JSON.stringify` of an
asset record (which `JSON.parse` round-trips back to the record) or a
corrupt string on which `JSON.parse` throws. -/
inductive StoredVal
  | encoded (a : UploadedAsset)
  | corrupt (s : String)
deriving DecidableEq

/-- The `try JSON.parse catch null` step of lines 76-80: the parse
outcome of one stored value. -/
def parseStored : StoredVal → Option UploadedAsset
  | .encoded a => some a
  | .corrupt _ => none

/-- The key-value store: per-key ordered field→value association list
(redis hash per user id). -/
def RedisState := String → List (String × StoredVal)

/-- The store with no hashes: every user maps to the empty field map. -/
def emptyStore : RedisState := fun _ => []

/-- Write one field of a hash: overwrite in place if present, append
otherwise (`hSet` field semantics). -/
def setField : List (String × StoredVal) → String → StoredVal → List (String × StoredVal)
  | [], f, v => [(f, v)]
  | (g, w) :: rest, f, v =>
      if g = f then (f, v) :: rest else (g, w) :: setField rest f v

/-- `redis.hSet(key, {[field]: value})` applied to the store. -/
def hSetStore (st : RedisState) (key field : String) (v : StoredVal) : RedisState :=
  fun k => if k = key then setField (st k) field v else st k

/-- The `x-file-name` request header as express exposes it:
`string | string[] | undefined`. -/
inductive HeaderVal
  | absent
  | str (s : String)
  | arr (l : List String)

/-- Line 171: `Array.isArray(h) ? h[0] : h` — the first value when the
header is an array (`none` for an empty array, modelling `undefined`). -/
def firstFileName : HeaderVal → Option String
  | .absent => none
  | .str s => some s
  | .arr l => l.head?

/-- Outcome of the `media.upload` call: a media URL and id, or a thrown
error. -/
inductive MediaResult
  | ok (mediaUrl mediaId : String)
  | err

/-- One upload request together with the behaviour of the external
services during it: caller identity, declared content type, the raw
body the middleware produced (`none` when it is not a Buffer),
the `x-file-name` header, the media-store outcome, whether the
registry write throws, and the current ISO time. -/
structure UploadCtx where
  userId : Option String
  contentType : Option String
  rawBody : Option (List Nat)
  fileNameHeader : HeaderVal
  mediaResult : MediaResult
  hSetFails : Bool
  now : String

/-- An external call made while handling a request: `media.upload`,
`redis.hGetAll`, or `redis.hSet` with its payload. -/
inductive ExtCall
  | mediaUpload (mt : MediaType) (url : String)
  | redisHGetAll (key : String)
  | redisHSet (key field : String) (v : StoredVal)
deriving DecidableEq

/-- The 64-character base64 alphabet. -/
def base64Chars : List Char :=
  "ABCDEFGHIJKLMNOPQRSTUVWXYZabcdefghijklmnopqrstuvwxyz0123456789+/".toList

/-- One base64 output character. -/
def b64c (n : Nat) : Char := base64Chars.getD n 'A'

/-- `Buffer.toString('base64')`: standard base64 with `=` padding. -/
def base64Encode : List Nat → String
  | [] => ""
  | [a] => String.mk [b64c (a / 4), b64c (a % 4 * 16), '=', '=']
  | [a, b] => String.mk [b64c (a / 4), b64c (a % 4 * 16 + b / 16), b64c (b % 16 * 4), '=']
  | a :: b :: c :: rest =>
      String.mk [b64c (a / 4), b64c (a % 4 * 16 + b / 16), b64c (b % 16 * 4 + c / 64),
        b64c (c % 64)] ++ base64Encode rest

/-- Response of `POST /api/upload-image`: the 200 body
`{type:'upload', mimeType, bytes, fileName?}` or a status/message error
body. -/
inductive UploadResp
  | ok (mimeType : String) (bytes : Nat) (fileName : Option String)
  | error (status : Nat) (message : String)
deriving DecidableEq

/-- The `POST /api/upload-image` handler (lines 133-207): returns the
response, the key-value store after the request, and the list of
external calls attempted, in order. -/
def uploadImage (ctx : UploadCtx) (st : RedisState) :
    UploadResp × RedisState × List ExtCall :=
  match ctx.userId with
  | none => (.error 401 "Unauthorized", st, [])
  | some uid =>
    let ct := ctx.contentType.getD ""
    if !(mimeOk ct) then (.error 415 "Unsupported Content-Type", st, [])
    else match ctx.rawBody with
      | none => (.error 400 "Empty or invalid request body", st, [])
      | some body =>
        if body.length == 0 then (.error 400 "Empty or invalid request body", st, [])
        else if !(validByMagic ct body) then (.error 415 "Invalid image format", st, [])
        else
          let fileName := firstFileName ctx.fileNameHeader
          let mediaType : MediaType := if ct == "image/gif" then .gif else .image
          let dataUrl := "data:" ++ ct ++ ";base64," ++ base64Encode body
          match ctx.mediaResult with
          | .err =>
              (.error 400 "Failed to process image upload", st, [.mediaUpload mediaType dataUrl])
          | .ok mediaUrl mediaId =>
            let assetData : UploadedAsset :=
              { mediaType := mediaType, mediaUrl := mediaUrl, mediaId := mediaId,
                date := ctx.now }
            let calls := [ExtCall.mediaUpload mediaType dataUrl,
              ExtCall.redisHSet uid mediaUrl (.encoded assetData)]
            if ctx.hSetFails then (.error 400 "Failed to process image upload", st, calls)
            else
              let st2 := hSetStore st uid mediaUrl (.encoded assetData)
              match fileName with
              | some f =>
                  if f == "" then (.ok ct body.length none, st2, calls)
                  else (.ok ct body.length (some f), st2, calls)
              | none => (.ok ct body.length none, st2, calls)

/-- Response of `GET /api/my-images`: the 200 body
`{type:'listUploads', assets}` or a status/message error body. -/
inductive ListResp
  | listUploads (assets : List UploadedAsset)
  | error (status : Nat) (message : String)
deriving DecidableEq

/-- One step of the insertion sort realising
`.sort((a, b) => (a.date < b.date ? 1 : -1))`: `a` goes after `b`
exactly when the comparator returns 1, i.e. when `a.date < b.date`. -/
def insertByDateDesc (a : UploadedAsset) : List UploadedAsset → List UploadedAsset
  | [] => [a]
  | b :: rest =>
      if a.date < b.date then b :: insertByDateDesc a rest else a :: b :: rest

/-- The date-descending sort of line 83. -/
def sortByDateDesc (l : List UploadedAsset) : List UploadedAsset :=
  l.foldr insertByDateDesc []

/-- The `GET /api/my-images` handler (lines 65-90): returns the
response and the list of external calls attempted. -/
def myImages (userId : Option String) (st : RedisState) : ListResp × List ExtCall :=
  match userId with
  | none => (.error 401 "Unauthorized", [])
  | some uid =>
    let entries := st uid
    let assets := sortByDateDesc (entries.filterMap (fun p => parseStored p.2))
    (.listUploads assets, [.redisHGetAll uid])

/-- A request on which everything up to and including the media-store
call succeeds, but the registry (`hSet`) write throws. -/
def ctxRegistryFail : UploadCtx :=
  { userId := some "user1", contentType := some "image/png",
    rawBody := some [0x89, 0x50, 0x4e, 0x47, 0x0d, 0x0a, 0x1a, 0x0a],
    fileNameHeader := .absent, mediaResult := .ok "https://media/1" "id1",
    hSetFails := true, now := "2024-01-01T00:00:00.000Z" }

/-- An authenticated request with a zero-length body but a declared
type outside the four allowed MIME strings. -/
def ctxEmptyBadType : UploadCtx :=
  { userId := some "user1", contentType := some "text/plain",
    rawBody := some [], fileNameHeader := .absent,
    mediaResult := .err, hSetFails := false, now := "2024-01-01T00:00:00.000Z" }

/-- A fully successful PNG upload request. -/
def ctxUploadOk : UploadCtx :=
  { userId := some "user1", contentType := some "image/png",
    rawBody := some [0x89, 0x50, 0x4e, 0x47, 0x0d, 0x0a, 0x1a, 0x0a],
    fileNameHeader := .absent, mediaResult := .ok "https://media/1" "id1",
    hSetFails := false, now := "2024-01-01T00:00:00.000Z" }

/-- A successful PNG upload carrying an `x-file-name` header. -/
def ctxWithFileName : UploadCtx :=
  { userId := some "user1", contentType := some "image/png",
    rawBody := some [0x89, 0x50, 0x4e, 0x47, 0x0d, 0x0a, 0x1a, 0x0a],
    fileNameHeader := .str "photo.png", mediaResult := .ok "https://media/1" "id1",
    hSetFails := false, now := "2024-01-01T00:00:00.000Z" }

/-- The dropped-last-two suffix of a list of length ≥ 2 is the pair of
its two `getD`-indexed last elements. -/
theorem drop_len_sub_two : ∀ (l : List Nat), 2 ≤ l.length →
    l.drop (l.length - 2) = [l.getD (l.length - 2) 0, l.getD (l.length - 1) 0]
  | [a, b], _ => rfl
  | a :: b :: c :: t, _ => by
    have ih := drop_len_sub_two (b :: c :: t) (by simp)
    have e1 : (a :: b :: c :: t).length - 2 = ((b :: c :: t).length - 2) + 1 := by
      simp only [List.length_cons]
      omega
    have e2 : (a :: b :: c :: t).length - 1 = ((b :: c :: t).length - 1) + 1 := by
      simp only [List.length_cons]
      omega
    rw [e1, List.drop_succ_cons, List.getD_cons_succ, e2, List.getD_cons_succ]
    exact ih

/-- On a payload declared `image/jpeg`, the sniffer dispatch reduces to
the JPEG check alone. -/
theorem validByMagic_jpeg (buf : List Nat) : validByMagic "image/jpeg" buf = isJpeg buf := by
  simp [validByMagic]

/-- The JPEG check holds exactly when the first two bytes are `FF D8`
and the last two bytes are `FF D9`. -/
theorem isJpeg_iff : ∀ (buf : List Nat), isJpeg buf = true ↔
    (buf.take 2 = [0xff, 0xd8] ∧ buf.drop (buf.length - 2) = [0xff, 0xd9])
  | [] => by simp [isJpeg]
  | [a] => by simp [isJpeg]
  | [a, b] => by
    simp only [isJpeg, List.length_cons, List.length_nil]
    simp
    omega
  | [a, b, c] => by
    simp only [isJpeg, List.length_cons, List.length_nil]
    simp
    omega
  | a :: b :: c :: d :: t => by
    rw [drop_len_sub_two (a :: b :: c :: d :: t) (by simp)]
    simp [isJpeg]
    omega

/-- C6: a payload declared as `image/jpeg` passes the sniffer iff its
first 2 bytes are `FF D8` and its last 2 bytes are `FF D9`; in
particular a correct header with a wrong trailer is rejected. -/
theorem jpeg_header_and_trailer_required (buf : List Nat) :
    validByMagic "image/jpeg" buf = true ↔
      (buf.take 2 = [0xff, 0xd8] ∧ buf.drop (buf.length - 2) = [0xff, 0xd9]) := by
  rw [validByMagic_jpeg]
  exact isJpeg_iff buf

/-- C7: a payload declared as `image/png` whose first 8 bytes are the
PNG signature is accepted by the sniffer whatever bytes follow. -/
theorem png_trailing_bytes_tolerated (rest : List Nat) :
    validByMagic "image/png" ([0x89, 0x50, 0x4e, 0x47, 0x0d, 0x0a, 0x1a, 0x0a] ++ rest) = true := by
  simp [validByMagic, isPng]

/-- Declaring the MIME string of format `G` makes the dispatch run
exactly `G`'s sniffer. -/
theorem validByMagic_mimeOf (G : ImgFormat) (buf : List Nat) :
    validByMagic (mimeOf G) buf = magicOk G buf := by
  cases G <;> simp [validByMagic, mimeOf, magicOk]

/-- The four MIME strings are pairwise distinct. -/
theorem mimeOf_inj (G F : ImgFormat) (h : mimeOf G = mimeOf F) : G = F := by
  cases G <;> cases F <;> first | rfl | (exact absurd h (by decide))

/-- Every allowed MIME string is `mimeOf` of some format. -/
theorem mimeOk_exists (ct : String) (hct : mimeOk ct = true) : ∃ G, ct = mimeOf G := by
  have h : ct = "image/png" ∨ ct = "image/jpeg" ∨ ct = "image/gif" ∨ ct = "image/webp" := by
    simpa [mimeOk, or_assoc] using hct
  rcases h with h | h | h | h
  · exact ⟨.png, h⟩
  · exact ⟨.jpeg, h⟩
  · exact ⟨.gif, h⟩
  · exact ⟨.webp, h⟩

/-- A payload accepted by some format's sniffer is nonempty. -/
theorem magicOk_length_ne_zero (F : ImgFormat) (buf : List Nat)
    (h : magicOk F buf = true) : buf.length ≠ 0 := by
  cases F <;>
  · simp only [magicOk, isPng, isJpeg, isGif, isWebp, Bool.and_eq_true, Bool.or_eq_true,
      decide_eq_true_eq, beq_iff_eq] at h
    omega

/-- C3: if a byte sequence carries valid magic bytes for exactly one of
the four formats, then among the four allowed declared types the
sniffer accepts precisely the matching one — 4 of the 16 combinations
accepted, the mismatching 12 rejected — and an authenticated upload of
that payload under any of the 3 mismatching declared types is answered
415 "Invalid image format". -/
theorem declared_type_must_match_magic (buf : List Nat) (F : ImgFormat)
    (hF : magicOk F buf = true)
    (hex : ∀ G : ImgFormat, G ≠ F → magicOk G buf = false)
    (ct : String) (hct : mimeOk ct = true) :
    (validByMagic ct buf = true ↔ ct = mimeOf F) ∧
    (∀ (ctx : UploadCtx) (st : RedisState) (uid : String),
      ctx.userId = some uid → ctx.contentType = some ct → ctx.rawBody = some buf →
      ct ≠ mimeOf F →
      (uploadImage ctx st).1 = .error 415 "Invalid image format") := by
  have hiff : validByMagic ct buf = true ↔ ct = mimeOf F := by
    obtain ⟨G, rfl⟩ := mimeOk_exists ct hct
    rw [validByMagic_mimeOf]
    by_cases hGF : G = F
    · subst hGF
      exact iff_of_true hF rfl
    · rw [hex G hGF]
      exact iff_of_false Bool.false_ne_true (fun h => hGF (mimeOf_inj G F h))
  refine ⟨hiff, fun ctx st uid hu hc hb hne => ?_⟩
  have hv : validByMagic ct buf = false := by
    cases hval : validByMagic ct buf
    · rfl
    · exact absurd (hiff.mp hval) hne
  have hl : (buf.length == 0) = false := by
    simpa using magicOk_length_ne_zero F buf hF
  unfold uploadImage
  rw [hu, hc, hb]
  simp [hct, hl, hv]

/-- A PNG-magic payload declared as `image/jpeg` fails the sniffer and
is answered 415: one of the 12 mismatching combinations of C3. -/
theorem declared_type_must_match_magic_witness :
    validByMagic "image/jpeg" [0x89, 0x50, 0x4e, 0x47, 0x0d, 0x0a, 0x1a, 0x0a] = false ∧
    (uploadImage
        { userId := some "user1", contentType := some "image/jpeg",
          rawBody := some [0x89, 0x50, 0x4e, 0x47, 0x0d, 0x0a, 0x1a, 0x0a],
          fileNameHeader := .absent, mediaResult := .err, hSetFails := false,
          now := "2024-01-01T00:00:00.000Z" } emptyStore).1
      = .error 415 "Invalid image format" := by
  have h := declared_type_must_match_magic
    [0x89, 0x50, 0x4e, 0x47, 0x0d, 0x0a, 0x1a, 0x0a] ImgFormat.png
    (by decide)
    (by intro G hG; cases G; exacts [absurd rfl hG, by decide, by decide, by decide])
    "image/jpeg" (by decide)
  have hne : ¬ (("image/jpeg" : String) = "image/png") := by decide
  constructor
  · cases hval : validByMagic "image/jpeg" [0x89, 0x50, 0x4e, 0x47, 0x0d, 0x0a, 0x1a, 0x0a]
    · rfl
    · exact absurd (h.1.mp hval) hne
  · exact h.2 _ emptyStore "user1" rfl rfl rfl hne

/-- A payload that passes the sniffer was declared with one of the four
allowed MIME strings. -/
theorem validByMagic_mimeOk (ct : String) (b : List Nat)
    (h : validByMagic ct b = true) : mimeOk ct = true := by
  simp only [validByMagic, Bool.or_eq_true, Bool.and_eq_true, beq_iff_eq] at h
  simp only [mimeOk, Bool.or_eq_true, beq_iff_eq]
  tauto

/-- A payload that passes the sniffer is nonempty (every magic check
requires at least 4 bytes). -/
theorem validByMagic_length_ne_zero (ct : String) (b : List Nat)
    (h : validByMagic ct b = true) : b.length ≠ 0 := by
  simp only [validByMagic, Bool.or_eq_true, Bool.and_eq_true] at h
  rcases h with ((⟨_, h⟩ | ⟨_, h⟩) | ⟨_, h⟩) | ⟨_, h⟩ <;>
  · simp only [isPng, isJpeg, isGif, isWebp, Bool.and_eq_true, Bool.or_eq_true,
      decide_eq_true_eq, beq_iff_eq] at h
    omega

/-- C5: a request with no caller identity gets 401 from either endpoint,
the store is untouched, and no media-store or key-value-store call is
made. -/
theorem unauthenticated_401_no_side_effects (ctx : UploadCtx) (st stH : RedisState)
    (h : ctx.userId = none) :
    uploadImage ctx st = (.error 401 "Unauthorized", st, []) ∧
    myImages none stH = (.error 401 "Unauthorized", []) := by
  constructor
  · unfold uploadImage
    rw [h]
  · rfl

/-- Witness for C5 at a concrete unauthenticated request. -/
theorem unauthenticated_401_no_side_effects_witness :
    uploadImage
      { userId := none, contentType := some "image/png",
        rawBody := some [0x89, 0x50, 0x4e, 0x47, 0x0d, 0x0a, 0x1a, 0x0a],
        fileNameHeader := .absent, mediaResult := .ok "https://media/1" "id1",
        hSetFails := false, now := "2024-01-01T00:00:00.000Z" } emptyStore
      = (.error 401 "Unauthorized", emptyStore, []) ∧
    myImages none emptyStore = (.error 401 "Unauthorized", []) :=
  unauthenticated_401_no_side_effects _ _ _ rfl

/-- C1 counterexample: when the registry write fails after a successful
media-store call, the handler's catch block answers 400, not a success
response. -/
theorem registry_write_failure_not_success :
    (uploadImage ctxRegistryFail emptyStore).1
      = .error 400 "Failed to process image upload" := by
  rfl

/-- C1 amended: if the media-store call succeeds and the registry write
fails, the caller gets the generic 400 upload-failure response and the
registry is left unchanged (the stored asset stays untracked in
history; the media-store side effect is not rolled back). -/
theorem registry_write_failure_returns_400 (ctx : UploadCtx) (st : RedisState)
    (uid ct url mid : String) (b : List Nat)
    (h1 : ctx.userId = some uid) (h2 : ctx.contentType = some ct)
    (h3 : ctx.rawBody = some b) (h4 : validByMagic ct b = true)
    (h5 : ctx.mediaResult = .ok url mid) (h6 : ctx.hSetFails = true) :
    (uploadImage ctx st).1 = .error 400 "Failed to process image upload" ∧
    (uploadImage ctx st).2.1 = st := by
  have hm := validByMagic_mimeOk ct b h4
  have hl : (b.length == 0) = false := by
    simpa using validByMagic_length_ne_zero ct b h4
  unfold uploadImage
  rw [h1, h2, h3, h5]
  simp [hm, hl, h4, h6]

/-- Witness for the amended C1 at the concrete failing request. -/
theorem registry_write_failure_returns_400_witness :
    (uploadImage ctxRegistryFail emptyStore).1
        = .error 400 "Failed to process image upload" ∧
    (uploadImage ctxRegistryFail emptyStore).2.1 = emptyStore :=
  registry_write_failure_returns_400 ctxRegistryFail emptyStore
    "user1" "image/png" "https://media/1" "id1"
    [0x89, 0x50, 0x4e, 0x47, 0x0d, 0x0a, 0x1a, 0x0a]
    rfl rfl rfl (by decide) rfl rfl

/-- C2 counterexample: an authenticated request with a zero-length body
declared `text/plain` is answered 415 (the content-type check fires
first), not 400. -/
theorem empty_body_bad_type_gets_415 :
    (uploadImage ctxEmptyBadType emptyStore).1
      = .error 415 "Unsupported Content-Type" := by
  rfl

/-- C2 amended: for an authenticated caller with a zero-length body the
response is 400 when the declared type is one of the four allowed MIME
strings; for any other declared type the earlier content-type check
answers 415 instead. -/
theorem empty_body_400_only_for_allowed_types (ctx : UploadCtx) (st : RedisState)
    (uid ct : String)
    (h1 : ctx.userId = some uid) (h2 : ctx.contentType = some ct) :
    (mimeOk ct = true → ctx.rawBody = some [] →
      (uploadImage ctx st).1 = .error 400 "Empty or invalid request body") ∧
    (mimeOk ct = false →
      (uploadImage ctx st).1 = .error 415 "Unsupported Content-Type") := by
  constructor
  · intro hm h3
    unfold uploadImage
    rw [h1, h2, h3]
    simp [hm]
  · intro hm
    unfold uploadImage
    rw [h1, h2]
    simp [hm]

/-- Witness for the amended C2: zero-length `image/png` body gets 400,
zero-length `text/plain` body gets 415. -/
theorem empty_body_400_only_for_allowed_types_witness :
    (uploadImage
      { userId := some "user1", contentType := some "image/png", rawBody := some [],
        fileNameHeader := .absent, mediaResult := .err, hSetFails := false,
        now := "2024-01-01T00:00:00.000Z" } emptyStore).1
      = .error 400 "Empty or invalid request body" ∧
    (uploadImage ctxEmptyBadType emptyStore).1 = .error 415 "Unsupported Content-Type" :=
  ⟨(empty_body_400_only_for_allowed_types _ emptyStore "user1" "image/png" rfl rfl).1
      (by decide) rfl,
   (empty_body_400_only_for_allowed_types ctxEmptyBadType emptyStore "user1" "text/plain"
      rfl rfl).2 (by decide)⟩

/-- Inserting into the comparator-sorted list is a permutation of
consing. -/
theorem insertByDateDesc_perm (a : UploadedAsset) (l : List UploadedAsset) :
    List.Perm (insertByDateDesc a l) (a :: l) := by
  induction l with
  | nil => exact List.Perm.refl _
  | cons b t ih =>
    unfold insertByDateDesc
    by_cases h : a.date < b.date
    · rw [if_pos h]
      exact (List.Perm.cons b ih).trans (List.Perm.swap a b t)
    · rw [if_neg h]

/-- The date-descending sort permutes its input. -/
theorem sortByDateDesc_perm (l : List UploadedAsset) : List.Perm (sortByDateDesc l) l := by
  induction l with
  | nil => exact List.Perm.refl _
  | cons a t ih =>
    have e : sortByDateDesc (a :: t) = insertByDateDesc a (sortByDateDesc t) := rfl
    rw [e]
    exact (insertByDateDesc_perm a _).trans (ih.cons a)

/-- C8: for an authenticated user the history query always answers with
a `listUploads` body — never an error — whose assets are exactly the
stored values that decode (corrupt entries silently dropped, nothing
else lost), and a user with an empty map gets an empty list. -/
theorem history_never_fails_on_stored_values (uid : String) (st : RedisState) :
    myImages (some uid) st
      = (.listUploads (sortByDateDesc ((st uid).filterMap (fun p => parseStored p.2))),
          [.redisHGetAll uid]) ∧
    (sortByDateDesc ((st uid).filterMap (fun p => parseStored p.2))).Perm
      ((st uid).filterMap (fun p => parseStored p.2)) ∧
    (st uid = [] → (myImages (some uid) st).1 = .listUploads []) := by
  refine ⟨rfl, sortByDateDesc_perm _, fun h => ?_⟩
  simp [myImages, h, sortByDateDesc]

/-- Witness for C8: a user with no prior uploads gets the empty asset
list. -/
theorem history_never_fails_on_stored_values_witness :
    (myImages (some "user1") emptyStore).1 = .listUploads [] :=
  (history_never_fails_on_stored_values "user1" emptyStore).2.2 rfl

/-- The gif test on the optional declared content type agrees with the
test on its `getD ""` default. -/
theorem getD_gif_iff (c : Option String) :
    c.getD "" = "image/gif" ↔ c = some "image/gif" := by
  cases c with
  | none => simp
  | some s => simp

/-- C9: every record the upload handler ever writes to the registry has
`mediaType` gif when the declared type is `image/gif` and image
otherwise; `video` is never written. -/
theorem written_mediaType_never_video (ctx : UploadCtx) (st : RedisState)
    (k f : String) (v : StoredVal)
    (hmem : ExtCall.redisHSet k f v ∈ (uploadImage ctx st).2.2) :
    ∃ r, v = .encoded r ∧
      r.mediaType
        = (if ctx.contentType = some "image/gif" then MediaType.gif else MediaType.image) ∧
      r.mediaType ≠ .video := by
  obtain ⟨userId, contentType, rawBody, fnh, mres, hsf, now⟩ := ctx
  cases userId with
  | none => simp [uploadImage] at hmem
  | some uid =>
    simp only [uploadImage] at hmem
    repeat' split at hmem
    all_goals simp at hmem
    all_goals obtain ⟨rfl, rfl, rfl⟩ := hmem
    all_goals refine ⟨_, rfl, ?_, ?_⟩
    all_goals first
      | decide
      | simp_all [getD_gif_iff]

/-- Witness for C9: the record written by a successful PNG upload has
`mediaType` image, not video. -/
theorem written_mediaType_never_video_witness :
    ∃ r, StoredVal.encoded
        { mediaType := MediaType.image, mediaUrl := "https://media/1", mediaId := "id1",
          date := "2024-01-01T00:00:00.000Z" } = StoredVal.encoded r ∧
      r.mediaType
        = (if ctxUploadOk.contentType = some "image/gif" then MediaType.gif
           else MediaType.image) ∧
      r.mediaType ≠ .video :=
  written_mediaType_never_video ctxUploadOk emptyStore "user1" "https://media/1"
    (StoredVal.encoded
      { mediaType := MediaType.image, mediaUrl := "https://media/1", mediaId := "id1",
        date := "2024-01-01T00:00:00.000Z" })
    (by decide)

/-- C10: on a successful upload the response carries `fileName` exactly
when the effective `x-file-name` value — the first value when the
header is repeated — is present and nonempty; an empty-string header is
treated as absent. -/
theorem fileName_echoed_iff_nonempty (ctx : UploadCtx) (st : RedisState)
    (uid ct url mid : String) (b : List Nat)
    (h1 : ctx.userId = some uid) (h2 : ctx.contentType = some ct)
    (h3 : ctx.rawBody = some b) (h4 : validByMagic ct b = true)
    (h5 : ctx.mediaResult = .ok url mid) (h6 : ctx.hSetFails = false) :
    (∀ s, firstFileName ctx.fileNameHeader = some s → s ≠ "" →
        (uploadImage ctx st).1 = .ok ct b.length (some s)) ∧
    ((firstFileName ctx.fileNameHeader = none ∨ firstFileName ctx.fileNameHeader = some "") →
        (uploadImage ctx st).1 = .ok ct b.length none) ∧
    (∀ s l, ctx.fileNameHeader = HeaderVal.arr (s :: l) →
        firstFileName ctx.fileNameHeader = some s) := by
  have hm := validByMagic_mimeOk ct b h4
  have hl : (b.length == 0) = false := by
    simpa using validByMagic_length_ne_zero ct b h4
  refine ⟨?_, ?_, ?_⟩
  · intro s hs hne
    unfold uploadImage
    rw [h1, h2, h3, h5, hs]
    simp [hm, hl, h4, h6, hne]
  · intro hs
    unfold uploadImage
    rw [h1, h2, h3, h5]
    rcases hs with hs | hs <;> rw [hs] <;> simp [hm, hl, h4, h6]
  · intro s l hfn
    rw [hfn]
    rfl

/-- Witness for C10: a nonempty `x-file-name` value is echoed in the
success response. -/
theorem fileName_echoed_iff_nonempty_witness :
    (uploadImage ctxWithFileName emptyStore).1 = .ok "image/png" 8 (some "photo.png") :=
  (fileName_echoed_iff_nonempty ctxWithFileName emptyStore "user1" "image/png"
    "https://media/1" "id1" [0x89, 0x50, 0x4e, 0x47, 0x0d, 0x0a, 0x1a, 0x0a]
    rfl rfl rfl (by decide) rfl rfl).1 "photo.png" rfl (by decide)

/-- The key-value store a successful upload leaves behind: the caller's
hash gains one field keyed by the returned media URL, holding the
serialized record whose date is the request time. -/
theorem uploadImage_state_ok (ctx : UploadCtx) (st : RedisState)
    (uid ct url mid : String) (b : List Nat)
    (h1 : ctx.userId = some uid) (h2 : ctx.contentType = some ct)
    (h3 : ctx.rawBody = some b) (h4 : validByMagic ct b = true)
    (h5 : ctx.mediaResult = .ok url mid) (h6 : ctx.hSetFails = false) :
    (uploadImage ctx st).2.1 = hSetStore st uid url
      (.encoded { mediaType := if ct == "image/gif" then .gif else .image,
                  mediaUrl := url, mediaId := mid, date := ctx.now }) := by
  have hm := validByMagic_mimeOk ct b h4
  have hl : (b.length == 0) = false := by
    simpa using validByMagic_length_ne_zero ct b h4
  unfold uploadImage
  rw [h1, h2, h3, h5]
  simp only [Option.getD_some, hm, hl, h4, h6, Bool.not_true, Bool.false_eq_true,
    if_false, Bool.true_eq_false, ite_false, ite_true]
  repeat' split
  all_goals rfl

/-- C4: after two successful uploads by the same user at times T1 < T2
into a previously empty collection, the history query lists the T2
record before the T1 record. -/
theorem uploads_listed_most_recent_first
    (uid ct1 ct2 url1 url2 id1 id2 T1 T2 : String) (b1 b2 : List Nat)
    (fn1 fn2 : HeaderVal) (st0 : RedisState)
    (h1 : validByMagic ct1 b1 = true) (h2 : validByMagic ct2 b2 = true)
    (hurl : url1 ≠ url2) (hT : T1 < T2) (hstore : st0 uid = []) :
    (myImages (some uid)
        (uploadImage ⟨some uid, some ct2, some b2, fn2, .ok url2 id2, false, T2⟩
          (uploadImage ⟨some uid, some ct1, some b1, fn1, .ok url1 id1, false, T1⟩
            st0).2.1).2.1).1
      = .listUploads
          [{ mediaType := if ct2 == "image/gif" then .gif else .image, mediaUrl := url2,
             mediaId := id2, date := T2 },
           { mediaType := if ct1 == "image/gif" then .gif else .image, mediaUrl := url1,
             mediaId := id1, date := T1 }] := by
  rw [uploadImage_state_ok _ _ uid ct2 url2 id2 b2 rfl rfl rfl h2 rfl rfl,
      uploadImage_state_ok _ _ uid ct1 url1 id1 b1 rfl rfl rfl h1 rfl rfl]
  simp only [myImages, hSetStore, if_pos rfl, hstore]
  simp [setField, hurl, parseStored, sortByDateDesc, insertByDateDesc, hT]

/-- Witness for C4 at two concrete uploads (a PNG then a GIF) one day
apart. -/
theorem uploads_listed_most_recent_first_witness :
    (myImages (some "user1")
        (uploadImage
          ⟨some "user1", some "image/gif", some [0x47, 0x49, 0x46, 0x38, 0x39, 0x61],
            .absent, .ok "https://media/2" "id2", false, "2024-01-02T00:00:00.000Z"⟩
          (uploadImage
            ⟨some "user1", some "image/png",
              some [0x89, 0x50, 0x4e, 0x47, 0x0d, 0x0a, 0x1a, 0x0a],
              .absent, .ok "https://media/1" "id1", false, "2024-01-01T00:00:00.000Z"⟩
            emptyStore).2.1).2.1).1
      = .listUploads
          [{ mediaType := .gif, mediaUrl := "https://media/2", mediaId := "id2",
             date := "2024-01-02T00:00:00.000Z" },
           { mediaType := .image, mediaUrl := "https://media/1", mediaId := "id1",
             date := "2024-01-01T00:00:00.000Z" }] := by
  have h := uploads_listed_most_recent_first "user1" "image/png" "image/gif"
    "https://media/1" "https://media/2" "id1" "id2"
    "2024-01-01T00:00:00.000Z" "2024-01-02T00:00:00.000Z"
    [0x89, 0x50, 0x4e, 0x47, 0x0d, 0x0a, 0x1a, 0x0a]
    [0x47, 0x49, 0x46, 0x38, 0x39, 0x61] .absent .absent emptyStore
    (by decide) (by decide) (by decide)
    (by simp [String.lt_iff_toList_lt]; decide) rfl
  exact h

end ImageDrop
